import Mathlib

/-!
Verification development for the NEXUS media-transcription pipeline
(`src/app.py`, class `AIPreProductionStudio`).

The pipeline methods `transcribe_video_file`,
`transcribe_youtube_with_timestamps`, `transcribe_youtube_alternative` and
`display_transcript_with_timestamps` are shallowly embedded below.  External
collaborators (pydub decoding, the Google speech recognizer, yt-dlp, pytube
and whisper) are modelled as environments that supply the outcome of each
external call, so that the control flow, the error handling and the
temporary-file lifecycle of the Python code are captured exactly.  Python
floats are modelled as exact rationals; Python strings as lists of
characters.
-/

set_option maxRecDepth 8000

namespace Nexus

/-- Python strings, modelled as lists of characters. -/
abbrev Str := List Char

/-- The Python exception classes that can cross the pipeline's stage
boundaries.  All of them derive from `Exception`, so every one of them is
caught by a bare `except Exception` clause. -/
inductive PyExc where
  /-- `yt_dlp.DownloadError` -/
  | downloadError (msg : Str)
  /-- `sr.UnknownValueError` -/
  | unknownValue
  /-- `sr.RequestError` -/
  | requestError (msg : Str)
  /-- any other exception class derived from `Exception` -/
  | otherError (msg : Str)
deriving DecidableEq

/-- One word-level timing entry of a whisper segment
(`segment['words']` elements). -/
structure WordT where
  word : Str
  start : ℚ
  stop : ℚ
deriving DecidableEq

/-- One transcript segment, from the dictionaries built at app.py:409-414,
app.py:498-503 and app.py:564-569: `start`, `end` (here `stop`, since `end`
is a Lean keyword), `text` and `words`. -/
structure Segment where
  start : ℚ
  stop : ℚ
  text : Str
  words : List WordT
deriving DecidableEq

/-- The transcript dictionaries built by the three transcription methods.
The `id` (a fresh uuid) and `timestamp` (wall-clock time) fields are
nondeterministic externalities carrying no pipeline logic and are omitted. -/
structure Transcript where
  source : Str
  title : Str
  segments : List Segment
deriving DecidableEq

/-! ## Uploaded-file path: `transcribe_video_file` (app.py:360-437) -/

/-- An uploaded file handed to `transcribe_video_file`: its `name` and the
byte string returned by `video_file.read()`. -/
structure UploadedFile where
  name : Str
  content : List ℕ

/-- The behaviour of the external collaborators during one call to
`transcribe_video_file`:
* `decode` — `AudioSegment.from_file` on the temp file holding the given
  byte content; on success yields `len(audio)`, the duration in
  milliseconds (app.py:381-384);
* `recognize` — the outcome of the speech-recognition block
  (`r.recognize_google(audio_data)` and the reads leading to it,
  app.py:395-401);
* `cleanupFails` — whether `os.remove` in the `finally` block raises
  (app.py:431-437). -/
structure UploadEnv where
  decode : List ℕ → Except PyExc ℕ
  recognize : Except PyExc Str
  cleanupFails : Bool

/-- What happened to the filesystem and to the engine during one call to
`transcribe_video_file`:
* `videoTmpCreated` — the `NamedTemporaryFile` holding the uploaded bytes
  was created (app.py:371-373);
* `audioTmpCreated` — the normalized `.wav` temp file was created
  (app.py:387-389);
* `videoTmpRemoved`, `audioTmpRemoved` — the corresponding `os.remove`
  calls in the `finally` block succeeded (app.py:431-435);
* `engineCalled` — control reached the speech-recognition block
  (app.py:395-401): there is no duration gate before it. -/
structure UploadTrace where
  videoTmpCreated : Bool
  audioTmpCreated : Bool
  videoTmpRemoved : Bool
  audioTmpRemoved : Bool
  engineCalled : Bool
deriving DecidableEq

/-- The `try` block of `transcribe_video_file` (app.py:368-417): write the
payload to a temp file, decode it with pydub, export a `.wav` temp file,
run the recognizer, and build the single-segment transcript dictionary
(app.py:404-415).  Returns the raised exception or the transcript, plus the
trace so far (removal happens only in `finally`). -/
def uploadBody (f : UploadedFile) (env : UploadEnv) :
    Except PyExc Transcript × UploadTrace :=
  -- app.py:371-373: the temp file is created and written unconditionally,
  -- whatever the content (in particular for empty content).
  match env.decode f.content with
  | .error e => (.error e, ⟨true, false, false, false, false⟩)
  | .ok ms =>
    -- app.py:387-389: audio.export to a fresh .wav temp file;
    -- app.py:392-401: the recognition block is entered unconditionally.
    match env.recognize with
    | .error e => (.error e, ⟨true, true, false, false, true⟩)
    | .ok text =>
      (.ok ⟨f.name, f.name, [⟨0, (ms : ℚ) / 1000, text, []⟩]⟩,
       ⟨true, true, false, false, true⟩)

/-- The `finally` block of `transcribe_video_file` (app.py:429-437): remove
whichever temp files exist; a raised cleanup error is caught locally and
only warned about. -/
def uploadCleanup (tr : UploadTrace) (env : UploadEnv) : UploadTrace :=
  if env.cleanupFails then tr
  else { tr with videoTmpRemoved := tr.videoTmpCreated,
                 audioTmpRemoved := tr.audioTmpCreated }

/-- `transcribe_video_file` with its exception behaviour made explicit:
the `except` clauses at app.py:419-427 map `sr.UnknownValueError`,
`sr.RequestError` and finally any `Exception` to a `None` result, so no
exception escapes (`.error` is never produced). -/
def transcribe_video_file_exc (f : UploadedFile) (env : UploadEnv) :
    Except PyExc (Option Transcript) × UploadTrace :=
  match uploadBody f env with
  | (.ok t, tr) => (.ok (some t), uploadCleanup tr env)
  | (.error .unknownValue, tr) => (.ok none, uploadCleanup tr env)
  | (.error (.requestError _), tr) => (.ok none, uploadCleanup tr env)
  | (.error _, tr) => (.ok none, uploadCleanup tr env)

/-- `transcribe_video_file` (app.py:360-437) as seen by its callers:
either a transcript or `None`. -/
def transcribe_video_file (f : UploadedFile) (env : UploadEnv) :
    Option Transcript × UploadTrace :=
  match transcribe_video_file_exc f env with
  | (.ok r, tr) => (r, tr)
  | (.error _, tr) => (none, tr)

/-! ## Remote-URL path: `transcribe_youtube_alternative` (app.py:526-577) -/

/-- The behaviour of the external collaborators during one call to the
pytube fallback `transcribe_youtube_alternative`:
* `ytInit` — constructing `YouTube(video_url)` and touching its streams
  and title; on success yields `yt.title` (app.py:532, 543);
* `hasStream` — whether `yt.streams.filter(only_audio=True).first()`
  finds a stream (app.py:533-537);
* `download` — `audio_stream.download(filename=temp_path)` (app.py:544);
* `fileExistsAfter` — `os.path.exists(temp_path)` after the download
  (app.py:546);
* `fileSize` — `os.path.getsize(temp_path)` (app.py:546);
* `whisper` — the whisper model load and transcription, yielding the raw
  segment list `result['segments']` (app.py:551-552). -/
structure FbEnv where
  ytInit : Except PyExc Str
  hasStream : Bool
  download : Except PyExc Unit
  fileExistsAfter : Bool
  fileSize : ℕ
  whisper : Except PyExc (List Segment)

/-- Filesystem/engine trace of one call to `transcribe_youtube_alternative`:
* `fileCreated` — the `NamedTemporaryFile(delete=False, suffix='.mp4')`
  was created (app.py:540-541);
* `fileRemoved` — `os.unlink(temp_path)` ran (app.py:571; it is the only
  removal of that file in the function);
* `whisperCalled` — control reached the whisper transcription
  (app.py:550-552). -/
structure FbTrace where
  fileCreated : Bool
  fileRemoved : Bool
  whisperCalled : Bool
deriving DecidableEq

/-- The `try` block of `transcribe_youtube_alternative` (app.py:528-573).
Note that every early `return None` and every raised exception leaves the
function without reaching the `os.unlink(temp_path)` at app.py:571: the
function has no `finally` block. -/
def fbBody (url : Str) (e : FbEnv) :
    Except PyExc (Option Transcript) × FbTrace :=
  match e.ytInit with
  | .error ex => (.error ex, ⟨false, false, false⟩)
  | .ok title =>
    if e.hasStream = false then
      -- app.py:535-537: no audio stream found
      (.ok none, ⟨false, false, false⟩)
    else
      -- app.py:540-541: the temp file is created here
      match e.download with
      | .error ex => (.error ex, ⟨true, false, false⟩)
      | .ok _ =>
        if e.fileExistsAfter = false ∨ e.fileSize = 0 then
          -- app.py:546-548: zero-byte or missing download fails the strategy
          (.ok none, ⟨true, false, false⟩)
        else
          match e.whisper with
          | .error ex => (.error ex, ⟨true, false, true⟩)
          | .ok segs =>
            -- app.py:554-573: build the transcript, unlink, return it
            (.ok (some ⟨url, title, segs⟩), ⟨true, true, true⟩)

/-- `transcribe_youtube_alternative` with explicit exception behaviour:
the single `except Exception` clause at app.py:575-577 maps every raised
exception to `None`. -/
def transcribe_youtube_alternative_exc (url : Str) (e : FbEnv) :
    Except PyExc (Option Transcript) × FbTrace :=
  match fbBody url e with
  | (.ok r, tr) => (.ok r, tr)
  | (.error _, tr) => (.ok none, tr)

/-- `transcribe_youtube_alternative` (app.py:526-577) as seen by its
callers. -/
def transcribe_youtube_alternative (url : Str) (e : FbEnv) :
    Option Transcript × FbTrace :=
  match transcribe_youtube_alternative_exc url e with
  | (.ok r, tr) => (r, tr)
  | (.error _, tr) => (none, tr)

/-! ## Remote-URL path: `transcribe_youtube_with_timestamps`
(app.py:439-524) -/

/-- The audio-extension filter at app.py:469:
`f.endswith(('.mp3', '.m4a', '.webm'))`. -/
def isAudioName (s : Str) : Bool :=
  List.isSuffixOf ".mp3".data s || List.isSuffixOf ".m4a".data s ||
    List.isSuffixOf ".webm".data s

/-- The behaviour of the external collaborators during one call to
`transcribe_youtube_with_timestamps`:
* `extractInfo` — `ydl.extract_info(video_url, download=False)`; on
  success yields the video title (app.py:461-462);
* `download` — `ydl.download([video_url])` (app.py:466);
* `listing` — `os.listdir(temp_dir)` after the download, each entry with
  its size (app.py:469, 481);
* `fileExists` — `os.path.exists(audio_file_path)` (app.py:477);
* `whisper` — the whisper model load and transcription on the primary
  download (app.py:485-486);
* `rmtreeFails` — whether `shutil.rmtree(temp_dir)` in the `finally`
  block raises (app.py:519-524);
* `fb` — the collaborator behaviour for the pytube fallback, should it
  run. -/
structure YtEnv where
  extractInfo : Except PyExc Str
  download : Except PyExc Unit
  listing : List (Str × ℕ)
  fileExists : Bool
  whisper : Except PyExc (List Segment)
  rmtreeFails : Bool
  fb : FbEnv

/-- Trace of one call to `transcribe_youtube_with_timestamps`:
* `tempDirRemoved` — the `finally` block's `shutil.rmtree` succeeded
  (app.py:517-524); the `tempfile.mkdtemp()` directory (app.py:446) is
  always created;
* `primaryWhisperCalled` — control reached the whisper call of the
  primary strategy (app.py:484-486);
* `fallbackAttempts` — how many times `transcribe_youtube_alternative`
  was invoked (app.py:511);
* `fb` — the fallback's own trace (all-false when it never ran). -/
structure YtTrace where
  tempDirRemoved : Bool
  primaryWhisperCalled : Bool
  fallbackAttempts : ℕ
  fb : FbTrace
deriving DecidableEq

/-- The `try` block of `transcribe_youtube_with_timestamps`
(app.py:442-506): make the temp dir, run yt-dlp, locate the downloaded
audio file (no size check — app.py:481 only prints the size), transcribe
with whisper, and build the transcript from whatever segments whisper
returned (app.py:489-506), even when there are none. -/
def ytBody (url : Str) (env : YtEnv) :
    Except PyExc (Option Transcript) × Bool :=
  match env.extractInfo with
  | .error ex => (.error ex, false)
  | .ok title =>
    match env.download with
    | .error ex => (.error ex, false)
    | .ok _ =>
      match (env.listing.filter fun p => isAudioName p.1) with
      | [] => (.ok none, false)   -- app.py:471-473: no audio file found
      | _ :: _ =>
        if env.fileExists = false then
          (.ok none, false)       -- app.py:477-479
        else
          match env.whisper with
          | .error ex => (.error ex, true)
          | .ok segs => (.ok (some ⟨url, title, segs⟩), true)

/-- `transcribe_youtube_with_timestamps` with explicit exception
behaviour.  The `except yt_dlp.DownloadError` clause (app.py:508-511)
invokes the pytube fallback; the `except Exception` clause
(app.py:512-516) returns `None`; the `finally` block (app.py:517-524)
removes the temp directory on every path, swallowing its own errors. -/
def transcribe_youtube_with_timestamps_exc (url : Str) (env : YtEnv) :
    Except PyExc (Option Transcript) × YtTrace :=
  let dirRemoved := !env.rmtreeFails
  match ytBody url env with
  | (.ok r, w) =>
    (.ok r, ⟨dirRemoved, w, 0, ⟨false, false, false⟩⟩)
  | (.error (.downloadError _), w) =>
    match transcribe_youtube_alternative url env.fb with
    | (r, ftr) => (.ok r, ⟨dirRemoved, w, 1, ftr⟩)
  | (.error _, w) =>
    (.ok none, ⟨dirRemoved, w, 0, ⟨false, false, false⟩⟩)

/-- `transcribe_youtube_with_timestamps` (app.py:439-524) as seen by its
callers. -/
def transcribe_youtube_with_timestamps (url : Str) (env : YtEnv) :
    Option Transcript × YtTrace :=
  match transcribe_youtube_with_timestamps_exc url env with
  | (.ok r, tr) => (r, tr)
  | (.error _, tr) => (none, tr)

/-! ## Display and export: `display_transcript_with_timestamps`
(app.py:579-606) -/

/-- The character for a single decimal digit `d < 10`. -/
def digitChar (d : ℕ) : Char := Char.ofNat (48 + d)

/-- Base-10 digits of `n`, least significant first, with explicit fuel so
that the definition is structurally recursive (and hence evaluates inside
the kernel).  Agrees with `Nat.digits 10` whenever `n ≤ fuel`. -/
def natDigitsAux (fuel n : ℕ) : List ℕ :=
  match fuel, n with
  | 0, _ => []
  | _ + 1, 0 => []
  | fuel + 1, n + 1 => ((n + 1) % 10) :: natDigitsAux fuel ((n + 1) / 10)

/-- The decimal digits of `n`, most significant first, as Python renders a
nonnegative integer. -/
def natToDigitsBE (n : ℕ) : Str :=
  if n = 0 then ['0'] else (natDigitsAux n n).reverse.map digitChar

/-- Python `f"{n:02d}"` for a nonnegative integer `n`. -/
def pad2 (n : ℕ) : Str :=
  if n < 10 then '0' :: natToDigitsBE n else natToDigitsBE n

/-- The timestamp label built at app.py:584-586 for a nonnegative start
time: `minutes = int(start // 60)`, `seconds = int(start % 60)`,
rendered `f"{minutes:02d}:{seconds:02d}"`.  For nonnegative rationals
`int(q // 60) = ⌊q / 60⌋` and `int(q % 60) = ⌊q⌋ - 60 * ⌊q / 60⌋`. -/
def formatTimestamp (q : ℚ) : Str :=
  pad2 (Int.toNat ⌊q / 60⌋) ++ ':' :: pad2 (Int.toNat (⌊q⌋ - 60 * ⌊q / 60⌋))

/-- Rounding to the nearest integer with ties to even, the rounding Python
`format` applies to the (exactly represented) value. -/
def roundHalfEven (x : ℚ) : ℤ :=
  if x - ⌊x⌋ < 1 / 2 then ⌊x⌋
  else if 1 / 2 < x - ⌊x⌋ then ⌊x⌋ + 1
  else if ⌊x⌋ % 2 = 0 then ⌊x⌋ else ⌊x⌋ + 1

/-- Python `f"{q:.2f}"` for a nonnegative rational `q`: the value rounded
to two decimal places (ties to even), rendered with exactly two fractional
digits. -/
def fmt2 (q : ℚ) : Str :=
  natToDigitsBE ((roundHalfEven (100 * q)).toNat / 100) ++
    '.' :: [digitChar ((roundHalfEven (100 * q)).toNat / 10 % 10),
            digitChar ((roundHalfEven (100 * q)).toNat % 10)]

/-- One line of the transcript export, from app.py:600:
`f"[{seg['start']:.2f}s] {seg['text']}"`. -/
def toPlainTextLine (s : Segment) : Str :=
  '[' :: (fmt2 s.start ++ 's' :: ']' :: ' ' :: s.text)

/-- The plain-text transcript export, from app.py:600:
`"\n".join(f"[{seg['start']:.2f}s] {seg['text']}" for seg in segments)`. -/
def toPlainText (t : Transcript) : Str :=
  List.intercalate ['\n'] (t.segments.map toPlainTextLine)

/-! ## The export parser, from the round-trip law of the spec: split the
export on newlines and read each line as `[<float>s] <text>`. -/

/-- Split a character list at every occurrence of `c` (Python
`str.split`). -/
def splitOnChar (c : Char) : Str → List Str
  | [] => [[]]
  | a :: as =>
    match splitOnChar c as with
    | [] => [[a]]
    | l :: ls => if a = c then [] :: l :: ls else (a :: l) :: ls

/-- The value of a decimal digit character. -/
def digitVal (c : Char) : ℕ := c.toNat - 48

/-- The value of a big-endian string of decimal digits. -/
def digitsVal (s : Str) : ℕ := s.foldl (fun a c => 10 * a + digitVal c) 0

/-- Read a nonnegative fixed-point decimal `<digits>.<digits>`. -/
def parseDec (num : Str) : Option ℚ :=
  match splitOnChar '.' num with
  | [ip, fp] =>
    if ip ≠ [] ∧ fp ≠ [] ∧ (ip ++ fp).all Char.isDigit then
      some ((digitsVal ip : ℚ) + (digitsVal fp : ℚ) / (10 : ℚ) ^ fp.length)
    else none
  | _ => none

/-- Split a line body at the first `s`: the characters before it (the
number) and the rest, starting with that `s` when one is present. -/
def readNum : Str → Str × Str
  | [] => ([], [])
  | a :: as =>
    if a = 's' then ([], a :: as)
    else (a :: (readNum as).1, (readNum as).2)

/-- Read one export line as `[<float>s] <text>`: the number runs up to the
first `s`, which must be followed by `] `; the remainder is the text. -/
def parseLine (l : Str) : Option (ℚ × Str) :=
  match l with
  | '[' :: rest =>
    match readNum rest with
    | (num, 's' :: ']' :: ' ' :: text) => (parseDec num).map fun q => (q, text)
    | _ => none
  | _ => none

/-- Read every line, failing if any line fails. -/
def parseAll : List Str → Option (List (ℚ × Str))
  | [] => some []
  | l :: ls =>
    match parseLine l, parseAll ls with
    | some p, some ps => some (p :: ps)
    | _, _ => none

/-- Parse a whole plain-text export back into `(start, text)` pairs. -/
def parsePlainText (s : Str) : Option (List (ℚ × Str)) :=
  parseAll (splitOnChar '\n' s)

/-! ## Concrete inputs and environments used by the theorems below -/

/-- A fallback environment for calls in which the fallback never runs. -/
def fbUnused : FbEnv := ⟨.ok "T".data, false, .ok (), false, 0, .ok []⟩

/-- A run in which yt-dlp raises `DownloadError` and the pytube fallback's
`audio_stream.download` raises: the fallback has already created its
`NamedTemporaryFile`. -/
def envLeak : YtEnv :=
  { extractInfo := .error (.downloadError "network".data)
    download := .ok ()
    listing := []
    fileExists := true
    whisper := .ok []
    rmtreeFails := false
    fb := { ytInit := .ok "Title".data
            hasStream := true
            download := .error (.otherError "http 403".data)
            fileExistsAfter := true
            fileSize := 5
            whisper := .ok [] } }

/-- A run in which yt-dlp raises `DownloadError` and the pytube fallback
finds no audio stream. -/
def envOneFallback : YtEnv :=
  { extractInfo := .error (.downloadError "network".data)
    download := .ok ()
    listing := []
    fileExists := true
    whisper := .ok []
    rmtreeFails := false
    fb := { ytInit := .ok "Title".data
            hasStream := false
            download := .ok ()
            fileExistsAfter := true
            fileSize := 5
            whisper := .ok [] } }

/-- An upload run whose decoder rejects the (empty) payload, as pydub does
on a zero-byte file. -/
def envEmptyUpload : UploadEnv :=
  ⟨fun _ => .error (.otherError "CouldntDecodeError".data), .ok "x".data, false⟩

/-- A remote run in which the primary download succeeds and whisper
returns zero segments. -/
def envNoSegments : YtEnv :=
  { extractInfo := .ok "Title".data
    download := .ok ()
    listing := [("audio.mp3".data, 123)]
    fileExists := true
    whisper := .ok []
    rmtreeFails := false
    fb := fbUnused }

/-- An upload run whose decode yields a zero-millisecond audio and whose
recognizer nevertheless answers. -/
def envZeroDuration : UploadEnv :=
  ⟨fun _ => .ok 0, .ok "hello".data, false⟩

/-- A remote run in which the primary download leaves a zero-byte audio
file in the temp directory. -/
def envZeroByte : YtEnv :=
  { extractInfo := .ok "Title".data
    download := .ok ()
    listing := [("audio.mp3".data, 0)]
    fileExists := true
    whisper := .ok [⟨0, 1, "x".data, []⟩]
    rmtreeFails := false
    fb := fbUnused }

/-- A fallback run whose download produces a zero-byte file. -/
def envFbZeroByte : FbEnv :=
  ⟨.ok "Title".data, true, .ok (), true, 0, .ok [⟨0, 1, "x".data, []⟩]⟩

/-- A successful upload run: a 2000 ms audio, recognized as `hello`. -/
def envGoodUpload : UploadEnv :=
  ⟨fun _ => .ok 2000, .ok "hello".data, false⟩

/-- A transcript whose single segment has a start time that two decimal
places cannot represent. -/
def preciseTranscript : Transcript :=
  ⟨"u".data, "t".data, [⟨1 / 1000, 4, "hi".data, []⟩]⟩

/-- A transcript whose segment starts are exact multiples of `1/100`. -/
def exactTranscript : Transcript :=
  ⟨"u".data, "t".data,
    [⟨7 / 2, 4, "hi there".data, []⟩, ⟨0, 1, "bye".data, []⟩]⟩

/-! ## Helper lemmas -/

theorem natDigitsAux_eq_digits :
    ∀ fuel n, n ≤ fuel → natDigitsAux fuel n = Nat.digits 10 n := by
  intro fuel
  induction fuel with
  | zero =>
    intro n hn
    interval_cases n
    simp [natDigitsAux]
  | succ fuel ih =>
    intro n hn
    match n with
    | 0 => simp [natDigitsAux]
    | m + 1 =>
      have hdiv : (m + 1) / 10 ≤ fuel :=
        Nat.lt_succ_iff.mp
          (lt_of_lt_of_le (Nat.div_lt_self (Nat.succ_pos m) (by norm_num)) hn)
      rw [natDigitsAux, ih _ hdiv,
        Nat.digits_def' (by norm_num : 1 < 10) (Nat.succ_pos m)]

theorem uploadCleanup_engineCalled (tr : UploadTrace) (env : UploadEnv) :
    (uploadCleanup tr env).engineCalled = tr.engineCalled := by
  unfold uploadCleanup
  split <;> rfl

/-! ## Claim C9 -/

/-- Claim C9: the displayed timestamp format uses integer-floor minutes
and seconds, so `FormatTimestamp(125.7) = "02:05"`,
`FormatTimestamp(0) = "00:00"` and `FormatTimestamp(59.999) = "00:59"`
(the decimal literals taken exactly; the Python floats nearest to them
produce the same three strings). -/
theorem C9_formatTimestamp_values :
    formatTimestamp (1257 / 10) = "02:05".data ∧
    formatTimestamp 0 = "00:00".data ∧
    formatTimestamp (59999 / 1000) = "00:59".data := by
  refine ⟨?_, ?_, ?_⟩ <;> with_unfolding_all rfl

/-! ## Claim C8 -/

/-- Claim C8: every successful uploaded-file transcription through the
cloud-API engine returns exactly one segment with start `0`, end equal to
the audio duration in seconds (`len(audio) / 1000`), and no word
timings. -/
theorem C8_upload_single_segment (f : UploadedFile) (env : UploadEnv)
    (ms : ℕ) (text : Str)
    (hdec : env.decode f.content = .ok ms)
    (hrec : env.recognize = .ok text) :
    (transcribe_video_file f env).1 =
      some ⟨f.name, f.name, [⟨0, (ms : ℚ) / 1000, text, []⟩]⟩ := by
  simp [transcribe_video_file, transcribe_video_file_exc, uploadBody,
    hdec, hrec]

/-- Witness for C8 at a concrete 2000 ms upload. -/
theorem C8_upload_single_segment_witness :
    (transcribe_video_file ⟨"a.mp4".data, [1]⟩ envGoodUpload).1 =
      some ⟨"a.mp4".data, "a.mp4".data,
        [⟨0, (2000 : ℚ) / 1000, "hello".data, []⟩]⟩ :=
  C8_upload_single_segment ⟨"a.mp4".data, [1]⟩ envGoodUpload 2000
    "hello".data rfl rfl

/-! ## Claim C10 -/

/-- Claim C10: both public entry points (and the fallback) are total at
their interface: whatever exception any stage raises, the `except`
clauses catch it and the call returns a value (`.ok`) rather than
propagating the exception (`.error`). -/
theorem C10_no_exception_escapes (f : UploadedFile) (envU : UploadEnv)
    (url url₂ : Str) (envY : YtEnv) (e : FbEnv) :
    (∃ r tr, transcribe_video_file_exc f envU = (.ok r, tr)) ∧
    (∃ r tr, transcribe_youtube_with_timestamps_exc url envY = (.ok r, tr)) ∧
    (∃ r tr, transcribe_youtube_alternative_exc url₂ e = (.ok r, tr)) := by
  refine ⟨?_, ?_, ?_⟩
  · unfold transcribe_video_file_exc
    split <;> exact ⟨_, _, rfl⟩
  · unfold transcribe_youtube_with_timestamps_exc
    split
    · exact ⟨_, _, rfl⟩
    · exact ⟨_, _, rfl⟩
    · exact ⟨_, _, rfl⟩
  · unfold transcribe_youtube_alternative_exc
    split <;> exact ⟨_, _, rfl⟩

/-! ## Claim C2 -/

/-- Claim C2: when the yt-dlp primary strategy fails with
`DownloadError`, the pytube fallback is attempted exactly once before the
call returns, and no call ever attempts the fallback more than once (so
at most the two configured strategies run). -/
theorem C2_fallback_exactly_once (url : Str) (env : YtEnv) (m : Str)
    (h : (ytBody url env).1 = .error (.downloadError m)) :
    (transcribe_youtube_with_timestamps url env).2.fallbackAttempts = 1 ∧
    ∀ (url₂ : Str) (env₂ : YtEnv),
      (transcribe_youtube_with_timestamps url₂ env₂).2.fallbackAttempts ≤ 1 := by
  constructor
  · rcases hb : ytBody url env with ⟨r, w⟩
    rw [hb] at h
    simp only at h
    subst h
    rcases ha : transcribe_youtube_alternative url env.fb with ⟨ar, atr⟩
    simp [transcribe_youtube_with_timestamps,
      transcribe_youtube_with_timestamps_exc, hb, ha]
  · intro url₂ env₂
    rcases hb : ytBody url₂ env₂ with ⟨ex | r, w⟩
    · cases ex with
      | downloadError m₂ =>
        rcases ha : transcribe_youtube_alternative url₂ env₂.fb with ⟨ar, atr⟩
        simp [transcribe_youtube_with_timestamps,
          transcribe_youtube_with_timestamps_exc, hb, ha]
      | unknownValue =>
        simp [transcribe_youtube_with_timestamps,
          transcribe_youtube_with_timestamps_exc, hb]
      | requestError m₂ =>
        simp [transcribe_youtube_with_timestamps,
          transcribe_youtube_with_timestamps_exc, hb]
      | otherError m₂ =>
        simp [transcribe_youtube_with_timestamps,
          transcribe_youtube_with_timestamps_exc, hb]
    · simp [transcribe_youtube_with_timestamps,
        transcribe_youtube_with_timestamps_exc, hb]

/-- Witness for C2 at a concrete run whose yt-dlp step raises
`DownloadError`. -/
theorem C2_fallback_exactly_once_witness :
    (transcribe_youtube_with_timestamps "url".data envOneFallback).2.fallbackAttempts = 1 :=
  (C2_fallback_exactly_once "url".data envOneFallback "network".data rfl).1

/-! ## Claim C1 -/

/-- Claim C1 (evaluation at the failing input): when yt-dlp raises
`DownloadError` and the pytube fallback's `audio_stream.download` then
raises, the call returns `None` with the fallback's temporary `.mp4` file
created but never removed — `transcribe_youtube_alternative` has no
`finally` block, so its failure paths skip the `os.unlink` at app.py:571.
The primary path's temp directory is removed, as its `finally` block
promises. -/
theorem C1_fallback_tempfile_leak :
    (transcribe_youtube_with_timestamps "url".data envLeak).1 = none ∧
    (transcribe_youtube_with_timestamps "url".data envLeak).2.fb.fileCreated = true ∧
    (transcribe_youtube_with_timestamps "url".data envLeak).2.fb.fileRemoved = false ∧
    (transcribe_youtube_with_timestamps "url".data envLeak).2.tempDirRemoved = true :=
  ⟨rfl, rfl, rfl, rfl⟩

/-! ## Claim C3 -/

/-- Claim C3 counterexample: `transcribe_video_file` has no empty-payload
check — for an empty upload the filesystem write path IS invoked (the
temp file holding the payload is created) before the decode step fails. -/
theorem C3_empty_upload_counterexample :
    (transcribe_video_file ⟨"clip.mp4".data, []⟩ envEmptyUpload).2.videoTmpCreated = true ∧
    (transcribe_video_file ⟨"clip.mp4".data, []⟩ envEmptyUpload).1 = none :=
  ⟨rfl, rfl⟩

/-- Claim C3 as amended: for every environment whose decoder rejects the
empty byte string (as pydub does), an empty upload returns the failure
value `None`, but only after the temporary file for the payload has been
created. -/
theorem C3_empty_upload_amended (name : Str) (env : UploadEnv) (e : PyExc)
    (h : env.decode [] = .error e) :
    (transcribe_video_file ⟨name, []⟩ env).1 = none ∧
    (transcribe_video_file ⟨name, []⟩ env).2.videoTmpCreated = true := by
  have hb : uploadBody ⟨name, []⟩ env =
      (.error e, ⟨true, false, false, false, false⟩) := by
    simp [uploadBody, h]
  constructor
  · cases e <;> simp [transcribe_video_file, transcribe_video_file_exc, hb]
  · cases e <;>
      simp [transcribe_video_file, transcribe_video_file_exc, hb,
        uploadCleanup] <;>
      cases hc : env.cleanupFails <;> simp [hc]

/-- Witness for the amended C3 at the concrete empty upload. -/
theorem C3_empty_upload_amended_witness :
    (transcribe_video_file ⟨"clip.mp4".data, []⟩ envEmptyUpload).1 = none ∧
    (transcribe_video_file ⟨"clip.mp4".data, []⟩ envEmptyUpload).2.videoTmpCreated = true :=
  C3_empty_upload_amended "clip.mp4".data envEmptyUpload
    (.otherError "CouldntDecodeError".data) rfl

/-! ## Claim C4 -/

/-- Claim C4 counterexample: a remote-URL run whose engine yields zero
segments returns a SUCCESSFUL transcript with an empty segments list
(app.py:489-506 builds and returns the transcript from whatever
`result['segments']` holds, empty included). -/
theorem C4_empty_segments_counterexample :
    (transcribe_youtube_with_timestamps "url".data envNoSegments).1 =
      some ⟨"url".data, "Title".data, []⟩ := by
  with_unfolding_all rfl

/-- Claim C4 as amended: on the remote-URL path a successful run returns
exactly the engine's segment list — zero engine segments yield a
successful Transcript with empty `segments`, not a failure.  (The upload
path always returns exactly one segment on success, per C8.) -/
theorem C4_engine_segments_passed_through (url : Str) (env : YtEnv)
    (title : Str) (segs : List Segment) (f : Str × ℕ) (fs : List (Str × ℕ))
    (h1 : env.extractInfo = .ok title) (h2 : env.download = .ok ())
    (h3 : env.listing.filter (fun p => isAudioName p.1) = f :: fs)
    (h4 : env.fileExists = true) (h5 : env.whisper = .ok segs) :
    (transcribe_youtube_with_timestamps url env).1 = some ⟨url, title, segs⟩ := by
  simp [transcribe_youtube_with_timestamps,
    transcribe_youtube_with_timestamps_exc, ytBody, h1, h2, h3, h4, h5]

/-- Witness for the amended C4 at the zero-segment run. -/
theorem C4_engine_segments_passed_through_witness :
    (transcribe_youtube_with_timestamps "url".data envNoSegments).1 =
      some ⟨"url".data, "Title".data, []⟩ :=
  C4_engine_segments_passed_through "url".data envNoSegments "Title".data
    [] ("audio.mp3".data, 123) [] rfl rfl (by with_unfolding_all rfl) rfl rfl

/-! ## Claim C6 -/

/-- Claim C6 counterexample: a decode that yields zero duration does NOT
produce a dedicated empty-media failure and DOES reach the
speech-recognition call — here the run even returns a successful
transcript spanning `[0, 0]`. -/
theorem C6_zero_duration_counterexample :
    (transcribe_video_file ⟨"v.mp4".data, [7]⟩ envZeroDuration).2.engineCalled = true ∧
    (transcribe_video_file ⟨"v.mp4".data, [7]⟩ envZeroDuration).1 =
      some ⟨"v.mp4".data, "v.mp4".data, [⟨0, 0, "hello".data, []⟩]⟩ := by
  constructor
  · rfl
  · with_unfolding_all rfl

/-- Claim C6 as amended: whenever the decode step succeeds — whatever the
duration, zero included — the speech-recognition call is reached: there
is no duration gate and no empty-media error in the code. -/
theorem C6_engine_always_reached (f : UploadedFile) (env : UploadEnv)
    (ms : ℕ) (h : env.decode f.content = .ok ms) :
    (transcribe_video_file f env).2.engineCalled = true := by
  unfold transcribe_video_file transcribe_video_file_exc
  rcases hrec : env.recognize with e | text
  · have hb : uploadBody f env = (.error e, ⟨true, true, false, false, true⟩) := by
      simp [uploadBody, h, hrec]
    cases e <;> simp [hb, uploadCleanup_engineCalled]
  · have hb : uploadBody f env =
        (.ok ⟨f.name, f.name, [⟨0, (ms : ℚ) / 1000, text, []⟩]⟩,
          ⟨true, true, false, false, true⟩) := by
      simp [uploadBody, h, hrec]
    simp [hb, uploadCleanup_engineCalled]

/-- Witness for the amended C6 at the zero-duration run. -/
theorem C6_engine_always_reached_witness :
    (transcribe_video_file ⟨"v.mp4".data, [7]⟩ envZeroDuration).2.engineCalled = true :=
  C6_engine_always_reached ⟨"v.mp4".data, [7]⟩ envZeroDuration 0 rfl

/-! ## Claim C7 -/

/-- Claim C7 counterexample: the PRIMARY strategy does not verify the
downloaded file is non-empty — app.py:481 only prints the size — so a
zero-byte download is handed to transcription as a successful
acquisition, with no fallback. -/
theorem C7_zero_byte_counterexample :
    (transcribe_youtube_with_timestamps "url".data envZeroByte).2.primaryWhisperCalled = true ∧
    (transcribe_youtube_with_timestamps "url".data envZeroByte).2.fallbackAttempts = 0 ∧
    (transcribe_youtube_with_timestamps "url".data envZeroByte).1 =
      some ⟨"url".data, "Title".data, [⟨0, 1, "x".data, []⟩]⟩ := by
  refine ⟨?_, ?_, ?_⟩ <;> with_unfolding_all rfl

/-- Claim C7 as amended: only the FALLBACK strategy verifies its
downloaded file is non-empty (app.py:546-548): a zero-byte pytube
download makes the fallback fail with `None` before its whisper call.
The primary strategy checks existence but never size. -/
theorem C7_fallback_checks_size (url : Str) (e : FbEnv) (title : Str)
    (h1 : e.ytInit = .ok title) (h2 : e.hasStream = true)
    (h3 : e.download = .ok ()) (h4 : e.fileSize = 0) :
    (transcribe_youtube_alternative url e).1 = none ∧
    (transcribe_youtube_alternative url e).2.whisperCalled = false := by
  have hb : fbBody url e = (.ok none, ⟨true, false, false⟩) := by
    simp [fbBody, h1, h2, h3, h4]
  constructor <;>
    simp [transcribe_youtube_alternative, transcribe_youtube_alternative_exc, hb]

/-- Witness for the amended C7 at the zero-byte fallback download. -/
theorem C7_fallback_checks_size_witness :
    (transcribe_youtube_alternative "url".data envFbZeroByte).1 = none ∧
    (transcribe_youtube_alternative "url".data envFbZeroByte).2.whisperCalled = false :=
  C7_fallback_checks_size "url".data envFbZeroByte "Title".data rfl rfl rfl rfl

/-! ## Digit and parsing helper lemmas, towards claim C5 -/

theorem digitChar_isDigit {d : ℕ} (h : d < 10) : (digitChar d).isDigit = true := by
  interval_cases d <;> decide

theorem digitVal_digitChar {d : ℕ} (h : d < 10) : digitVal (digitChar d) = d := by
  interval_cases d <;> rfl

theorem isDigit_facts (c : Char) (h : c.isDigit = true) :
    c ≠ 's' ∧ c ≠ '.' ∧ c ≠ '\n' := by
  refine ⟨?_, ?_, ?_⟩ <;> (rintro rfl; exact absurd h (by decide))

theorem natToDigitsBE_isDigit (n : ℕ) :
    ∀ c ∈ natToDigitsBE n, c.isDigit = true := by
  intro c hc
  unfold natToDigitsBE at hc
  split at hc
  · simp only [List.mem_singleton] at hc
    subst hc
    decide
  · rw [natDigitsAux_eq_digits n n le_rfl] at hc
    simp only [List.mem_map, List.mem_reverse] at hc
    obtain ⟨d, hd, rfl⟩ := hc
    exact digitChar_isDigit (Nat.digits_lt_base (by norm_num) hd)

theorem natToDigitsBE_ne_nil (n : ℕ) : natToDigitsBE n ≠ [] := by
  unfold natToDigitsBE
  split
  · simp
  · rename_i hn
    simp [Nat.digits_ne_nil_iff_ne_zero, natDigitsAux_eq_digits n n le_rfl, hn]

theorem foldl_digitVal_map (L : List ℕ) (h : ∀ d ∈ L, d < 10) :
    ∀ a : ℕ,
      (L.map digitChar).foldl (fun a c => 10 * a + digitVal c) a =
        L.foldl (fun a d => 10 * a + d) a := by
  induction L with
  | nil => intro a; rfl
  | cons d L ih =>
    intro a
    simp only [List.map_cons, List.foldl_cons]
    rw [digitVal_digitChar (h d (by simp))]
    exact ih (fun x hx => h x (by simp [hx])) _

theorem foldl_reverse_digits (L : List ℕ) :
    ∀ a : ℕ,
      L.reverse.foldl (fun a d => 10 * a + d) a =
        a * 10 ^ L.length + Nat.ofDigits 10 L := by
  induction L with
  | nil => intro a; simp [Nat.ofDigits]
  | cons d L ih =>
    intro a
    rw [List.reverse_cons, List.foldl_append, ih a]
    simp only [List.foldl_cons, List.foldl_nil, List.length_cons,
      Nat.ofDigits_cons]
    ring

theorem digitsVal_natToDigitsBE (n : ℕ) : digitsVal (natToDigitsBE n) = n := by
  unfold natToDigitsBE
  split
  · rename_i hn
    subst hn
    rfl
  · rw [natDigitsAux_eq_digits n n le_rfl]
    have hlt : ∀ d ∈ (Nat.digits 10 n).reverse, d < 10 := by
      intro d hd
      exact Nat.digits_lt_base (by norm_num) (List.mem_reverse.mp hd)
    rw [digitsVal, foldl_digitVal_map _ hlt 0, foldl_reverse_digits, Nat.zero_mul,
      Nat.zero_add, Nat.ofDigits_digits]

theorem digitsVal_pair (d₁ d₂ : ℕ) (h₁ : d₁ < 10) (h₂ : d₂ < 10) :
    digitsVal [digitChar d₁, digitChar d₂] = 10 * d₁ + d₂ := by
  simp [digitsVal, digitVal_digitChar h₁, digitVal_digitChar h₂]

theorem splitOnChar_ne_nil (c : Char) (l : Str) : splitOnChar c l ≠ [] := by
  induction l with
  | nil => simp [splitOnChar]
  | cons a as ih =>
    simp only [splitOnChar]
    rcases h : splitOnChar c as with _ | ⟨x, xs⟩
    · exact absurd h ih
    · dsimp only
      split <;> simp

theorem splitOnChar_of_not_mem {c : Char} {l : Str} (h : c ∉ l) :
    splitOnChar c l = [l] := by
  induction l with
  | nil => rfl
  | cons a as ih =>
    have ha : a ≠ c := by rintro rfl; exact h (by simp)
    have h₂ : c ∉ as := fun hm => h (by simp [hm])
    simp only [splitOnChar, ih h₂]
    simp [ha]

theorem splitOnChar_append (c : Char) (l₁ l₂ : Str) (h : c ∉ l₁) :
    splitOnChar c (l₁ ++ c :: l₂) = l₁ :: splitOnChar c l₂ := by
  induction l₁ with
  | nil =>
    simp only [List.nil_append, splitOnChar]
    rcases hs : splitOnChar c l₂ with _ | ⟨x, xs⟩
    · exact absurd hs (splitOnChar_ne_nil c l₂)
    · simp
  | cons a as ih =>
    have ha : a ≠ c := by rintro rfl; exact h (by simp)
    have h₂ : c ∉ as := fun hm => h (by simp [hm])
    simp only [List.cons_append, splitOnChar]
    simp [ha, ih h₂]

theorem readNum_append (xs ys : Str) (h : 's' ∉ xs) :
    readNum (xs ++ 's' :: ys) = (xs, 's' :: ys) := by
  induction xs with
  | nil => simp [readNum]
  | cons a as ih =>
    have ha : a ≠ 's' := by rintro rfl; exact h (by simp)
    have h₂ : 's' ∉ as := fun hm => h (by simp [hm])
    simp [readNum, ha, ih h₂]

theorem fmt2_natCast_div (k : ℕ) :
    fmt2 ((k : ℚ) / 100) =
      natToDigitsBE (k / 100) ++
        '.' :: [digitChar (k / 10 % 10), digitChar (k % 10)] := by
  have h100 : (100 : ℚ) * ((k : ℚ) / 100) = (k : ℚ) := by
    rw [mul_comm]
    exact div_mul_cancel₀ _ (by norm_num)
  have hfl : roundHalfEven ((k : ℚ)) = (k : ℤ) := by
    unfold roundHalfEven
    rw [Int.floor_natCast]
    norm_num
  have hn : (roundHalfEven ((100 : ℚ) * ((k : ℚ) / 100))).toNat = k := by
    rw [h100, hfl, Int.toNat_natCast]
  unfold fmt2
  rw [hn]

theorem mem_fmt2 (k : ℕ) :
    ∀ c ∈ fmt2 ((k : ℚ) / 100), c.isDigit = true ∨ c = '.' := by
  rw [fmt2_natCast_div]
  intro c hc
  simp only [List.mem_append, List.mem_cons, List.not_mem_nil, or_false] at hc
  rcases hc with hip | hdot | h₁ | h₂
  · exact Or.inl (natToDigitsBE_isDigit _ c hip)
  · exact Or.inr hdot
  · exact Or.inl (h₁ ▸ digitChar_isDigit (Nat.mod_lt _ (by norm_num)))
  · exact Or.inl (h₂ ▸ digitChar_isDigit (Nat.mod_lt _ (by norm_num)))

theorem s_not_mem_fmt2 (k : ℕ) : 's' ∉ fmt2 ((k : ℚ) / 100) := by
  intro hm
  rcases mem_fmt2 k _ hm with hd | hdot
  · exact absurd hd (by decide)
  · exact absurd hdot (by decide)

theorem newline_not_mem_fmt2 (k : ℕ) : '\n' ∉ fmt2 ((k : ℚ) / 100) := by
  intro hm
  rcases mem_fmt2 k _ hm with hd | hdot
  · exact absurd hd (by decide)
  · exact absurd hdot (by decide)

theorem parseDec_fmt2 (k : ℕ) :
    parseDec (fmt2 ((k : ℚ) / 100)) = some ((k : ℚ) / 100) := by
  rw [fmt2_natCast_div]
  have hip_digits := natToDigitsBE_isDigit (k / 100)
  have hdot : '.' ∉ natToDigitsBE (k / 100) := fun hm =>
    (isDigit_facts _ (hip_digits _ hm)).2.1 rfl
  have hfp : '.' ∉ [digitChar (k / 10 % 10), digitChar (k % 10)] := by
    intro hm
    simp only [List.mem_cons, List.not_mem_nil, or_false] at hm
    rcases hm with h₁ | h₂
    · exact (isDigit_facts _ (h₁ ▸ digitChar_isDigit
        (Nat.mod_lt _ (by norm_num)))).2.1 (h₁ ▸ rfl)
    · exact (isDigit_facts _ (h₂ ▸ digitChar_isDigit
        (Nat.mod_lt _ (by norm_num)))).2.1 (h₂ ▸ rfl)
  unfold parseDec
  rw [splitOnChar_append '.' _ _ hdot, splitOnChar_of_not_mem hfp]
  dsimp only
  have hall : (natToDigitsBE (k / 100) ++
      [digitChar (k / 10 % 10), digitChar (k % 10)]).all Char.isDigit = true := by
    rw [List.all_eq_true]
    intro c hc
    simp only [List.mem_append, List.mem_cons, List.not_mem_nil, or_false] at hc
    rcases hc with hip | h₁ | h₂
    · exact hip_digits _ hip
    · exact h₁ ▸ digitChar_isDigit (Nat.mod_lt _ (by norm_num))
    · exact h₂ ▸ digitChar_isDigit (Nat.mod_lt _ (by norm_num))
  rw [if_pos ⟨natToDigitsBE_ne_nil _, by simp, hall⟩]
  rw [digitsVal_natToDigitsBE, digitsVal_pair _ _
    (Nat.mod_lt _ (by norm_num)) (Nat.mod_lt _ (by norm_num))]
  have hmod : 10 * (k / 10 % 10) + k % 10 = k % 100 := by omega
  rw [hmod]
  have hq : ((k / 100 : ℕ) : ℚ) * 100 + ((k % 100 : ℕ) : ℚ) = (k : ℚ) := by
    exact_mod_cast (by omega : k / 100 * 100 + k % 100 = k)
  have hlen : ((10 : ℚ)) ^ ([digitChar (k / 10 % 10), digitChar (k % 10)]).length
      = 100 := by norm_num
  rw [hlen]
  congr 1
  field_simp
  linarith [hq]

theorem parseLine_cons (rest : Str) :
    parseLine ('[' :: rest) =
      match readNum rest with
      | (num, 's' :: ']' :: ' ' :: text) => (parseDec num).map fun q => (q, text)
      | _ => none := rfl

theorem parseLine_toPlainTextLine (s : Segment) (k : ℕ)
    (hk : s.start = (k : ℚ) / 100) :
    parseLine (toPlainTextLine s) = some (s.start, s.text) := by
  unfold toPlainTextLine
  rw [hk, parseLine_cons, readNum_append _ _ (s_not_mem_fmt2 k)]
  show (parseDec (fmt2 ((k : ℚ) / 100))).map (fun q => (q, s.text)) = _
  rw [parseDec_fmt2]
  rfl

theorem newline_not_mem_toPlainTextLine (s : Segment) (k : ℕ)
    (hk : s.start = (k : ℚ) / 100) (ht : '\n' ∉ s.text) :
    '\n' ∉ toPlainTextLine s := by
  unfold toPlainTextLine
  rw [hk]
  intro hm
  simp only [List.mem_cons, List.mem_append] at hm
  rcases hm with h | h | h | h | h | h
  · exact absurd h (by decide)
  · exact newline_not_mem_fmt2 k h
  · exact absurd h (by decide)
  · exact absurd h (by decide)
  · exact absurd h (by decide)
  · exact ht h

theorem intercalate_singleton (sep x : Str) : List.intercalate sep [x] = x := by
  simp [List.intercalate, List.intersperse]

theorem intercalate_cons₂ (sep x y : Str) (l : List Str) :
    List.intercalate sep (x :: y :: l) = x ++ sep ++ List.intercalate sep (y :: l) := by
  simp [List.intercalate, List.intersperse]

theorem parseAll_intercalate (segs : List Segment)
    (h : ∀ s ∈ segs, (∃ k : ℕ, s.start = (k : ℚ) / 100) ∧ '\n' ∉ s.text)
    (hne : segs ≠ []) :
    parseAll (splitOnChar '\n' (List.intercalate ['\n'] (segs.map toPlainTextLine))) =
      some (segs.map fun s => (s.start, s.text)) := by
  induction segs with
  | nil => exact absurd rfl hne
  | cons s rest ih =>
    obtain ⟨⟨k, hk⟩, ht⟩ := h s (by simp)
    have hline : '\n' ∉ toPlainTextLine s :=
      newline_not_mem_toPlainTextLine s k hk ht
    have hparse := parseLine_toPlainTextLine s k hk
    cases rest with
    | nil =>
      rw [List.map_cons, List.map_nil, intercalate_singleton,
        splitOnChar_of_not_mem hline]
      simp [parseAll, hparse]
    | cons r rs =>
      have hrest := ih (fun x hx => h x (by simp [hx])) (by simp)
      rw [List.map_cons, List.map_cons, intercalate_cons₂]
      have hshape : toPlainTextLine s ++ ['\n'] ++
          List.intercalate ['\n'] (toPlainTextLine r :: rs.map toPlainTextLine) =
          toPlainTextLine s ++ '\n' ::
            List.intercalate ['\n'] (toPlainTextLine r :: rs.map toPlainTextLine) := by
        simp
      rw [hshape, splitOnChar_append _ _ _ hline]
      rw [List.map_cons] at hrest
      simp [parseAll, hparse, hrest]

/-! ## Claim C5 -/

/-- Claim C5 counterexample: the export formats `start` to two decimal
places, so a start of `0.001` exports as `[0.00s]` and parses back as
`0`, not `0.001`: the round trip is NOT lossless for full-precision
starts. -/
theorem C5_roundtrip_counterexample :
    parsePlainText (toPlainText preciseTranscript) ≠
      some (preciseTranscript.segments.map fun s => (s.start, s.text)) := by
  intro hcontra
  have h₁ : parsePlainText (toPlainText preciseTranscript) =
      some [((0 : ℚ), "hi".data)] := by
    with_unfolding_all rfl
  have h₂ : preciseTranscript.segments.map (fun s => (s.start, s.text)) =
      [((1 : ℚ) / 1000, "hi".data)] := rfl
  rw [h₁, h₂] at hcontra
  simp only [Option.some_inj, List.cons.injEq, Prod.mk.injEq] at hcontra
  norm_num at hcontra

/-- Claim C5 as amended: the plain-text round trip reproduces the
`(start, text)` pairs exactly whenever every start is an exact multiple
of `1/100` (what two decimal places can carry) and no text contains a
newline; for other starts the parsed value is the two-decimal rounding,
as the counterexample shows. -/
theorem C5_roundtrip_amended (t : Transcript) (hne : t.segments ≠ [])
    (h : ∀ s ∈ t.segments, (∃ k : ℕ, s.start = (k : ℚ) / 100) ∧ '\n' ∉ s.text) :
    parsePlainText (toPlainText t) =
      some (t.segments.map fun s => (s.start, s.text)) :=
  parseAll_intercalate t.segments h hne

/-- Witness for the amended C5 on a two-segment transcript with starts
`3.5` and `0`. -/
theorem C5_roundtrip_amended_witness :
    parsePlainText (toPlainText exactTranscript) =
      some (exactTranscript.segments.map fun s => (s.start, s.text)) :=
  C5_roundtrip_amended exactTranscript (by simp [exactTranscript])
    (by
      intro s hs
      simp only [exactTranscript, List.mem_cons, List.mem_singleton,
        List.not_mem_nil] at hs
      rcases hs with rfl | rfl | hs
      · exact ⟨⟨350, by norm_num⟩, by decide⟩
      · exact ⟨⟨0, by norm_num⟩, by decide⟩
      · exact absurd hs (by simp))

end Nexus
